import Mathlib

/-!
Verification development for the AmpGI process-sandboxing and permission-tier
subsystem. The definitions below are shallow embeddings of the JavaScript
source: `sandbox.js` (policy tables, sandbox factory, access validators,
tier classifier), `permissions.js` (permission store, safe mode, escalation
flow), `registry.js` (static server registry) and `process-manager.js`
(subprocess lifecycle). File-system state, spawned pids and fresh UUIDs are
passed as explicit parameters; console output and OS signals are elided as
they do not affect the values or state these theorems speak about.
-/

namespace AmpGI

/-! ### JavaScript string primitives

JS string methods are modelled on the underlying character lists so that they
reduce in the kernel. `jsToLower` models String.prototype.toLowerCase on the
ASCII range used by the policy keywords, `jsIncludes` models includes
(substring containment), `jsStartsWith`, `jsEndsWith`, `jsDrop` and `jsTrim`
model startsWith, endsWith, slice(n) and trim. -/

def jsToLower (s : String) : String := ⟨s.toList.map Char.toLower⟩

def infixCheck (p : List Char) : List Char → Bool
  | [] => p.isEmpty
  | c :: t => p.isPrefixOf (c :: t) || infixCheck p t

def jsIncludes (s p : String) : Bool := infixCheck p.toList s.toList

def jsStartsWith (s p : String) : Bool := p.toList.isPrefixOf s.toList

def jsEndsWith (s p : String) : Bool := p.toList.isSuffixOf s.toList

def jsDrop (s : String) (n : Nat) : String := ⟨s.toList.drop n⟩

def jsWhitespace (c : Char) : Bool := c == ' ' || c == '\t' || c == '\n' || c == '\r'

def jsTrim (s : String) : String :=
  ⟨((s.toList.dropWhile jsWhitespace).reverse.dropWhile jsWhitespace).reverse⟩

/-- JS `a || b` on possibly-absent strings: the empty string is falsy. -/
def jsOrStr (a b : Option String) : Option String :=
  match a with
  | some s => if s == "" then b else some s
  | none => b

/-! ### sandbox.js: permission tiers and policy tables -/

def PERMISSION_TIERS.LOW : String := "low"

def PERMISSION_TIERS.MEDIUM : String := "medium"

def PERMISSION_TIERS.HIGH : String := "high"

structure ResourceLimits where
  maxMemory : Nat
  maxCpuPercent : Nat
  maxExecutionTime : Nat
  maxConcurrentProcesses : Nat
deriving Repr, DecidableEq, Inhabited

/-- RESOURCE_LIMITS table from sandbox.js; indexing a JS object by a key
outside the three tiers yields undefined, modelled as none. -/
def RESOURCE_LIMITS (tier : String) : Option ResourceLimits :=
  if tier == PERMISSION_TIERS.LOW then
    some { maxMemory := 256 * 1024 * 1024, maxCpuPercent := 25,
           maxExecutionTime := 15000, maxConcurrentProcesses := 3 }
  else if tier == PERMISSION_TIERS.MEDIUM then
    some { maxMemory := 512 * 1024 * 1024, maxCpuPercent := 50,
           maxExecutionTime := 30000, maxConcurrentProcesses := 5 }
  else if tier == PERMISSION_TIERS.HIGH then
    some { maxMemory := 1024 * 1024 * 1024, maxCpuPercent := 80,
           maxExecutionTime := 60000, maxConcurrentProcesses := 10 }
  else none

structure FilePermissionRules where
  readablePaths : List String
  writablePaths : List String
  blockedPaths : List String
deriving Repr, DecidableEq, Inhabited

/-- FILE_PERMISSIONS table from sandbox.js. os.homedir() and process.cwd()
are the parameters home and cwd; path.join of a directory and a literal
segment is string concatenation with a slash. -/
def FILE_PERMISSIONS (home cwd tier : String) : Option FilePermissionRules :=
  if tier == PERMISSION_TIERS.LOW then
    some { readablePaths := [home ++ "/Documents", home ++ "/Desktop", cwd],
           writablePaths := [],
           blockedPaths := ["/etc", "/usr", "/bin", "/sbin", "/var", "/opt",
                            home ++ "/.ssh", home ++ "/.config"] }
  else if tier == PERMISSION_TIERS.MEDIUM then
    some { readablePaths := [home ++ "/Documents", home ++ "/Desktop",
                             home ++ "/Downloads", cwd],
           writablePaths := [home ++ "/Documents", home ++ "/Desktop",
                             home ++ "/Downloads", cwd],
           blockedPaths := ["/etc", "/usr", "/bin", "/sbin", "/var", "/opt",
                            home ++ "/.ssh"] }
  else if tier == PERMISSION_TIERS.HIGH then
    some { readablePaths := ["*"], writablePaths := ["*"], blockedPaths := [] }
  else none

/-- An entry of a JS allowedPorts array, which mixes numbers with the string
wildcard: allowedPorts of the high tier is a one-element array holding
a star, the medium tier lists the numbers 80, 443, 8080. -/
inductive PortEntry where
  | star
  | port (n : Int)
deriving Repr, DecidableEq, Inhabited

structure NetworkPermissionRules where
  allowNetwork : Bool
  allowedDomains : List String
  allowedPorts : List PortEntry
deriving Repr, DecidableEq, Inhabited

/-- NETWORK_PERMISSIONS table from sandbox.js. -/
def NETWORK_PERMISSIONS (tier : String) : Option NetworkPermissionRules :=
  if tier == PERMISSION_TIERS.LOW then
    some { allowNetwork := false, allowedDomains := [], allowedPorts := [] }
  else if tier == PERMISSION_TIERS.MEDIUM then
    some { allowNetwork := true,
           allowedDomains := ["api.github.com", "api.openai.com",
                              "api.anthropic.com", "*.googleapis.com",
                              "*.amazonaws.com"],
           allowedPorts := [.port 80, .port 443, .port 8080] }
  else if tier == PERMISSION_TIERS.HIGH then
    some { allowNetwork := true, allowedDomains := ["*"],
           allowedPorts := [.star] }
  else none

/-- A server configuration record as consumed from the registry or callers;
absent JS fields are none. Fields not read by any embedded function
(capabilities, category, auth, documentation, args) are omitted. -/
structure ServerConfig where
  id : Option String := none
  name : Option String := none
  description : Option String := none
  package : Option String := none
  permissions : Option (List String) := none
  permissionTier : Option String := none
  command : Option String := none
deriving Repr, DecidableEq, Inhabited

structure Sandbox where
  id : String
  serverId : Option String
  permissionTier : String
  resourceLimits : ResourceLimits
  filePermissions : FilePermissionRules
  networkPermissions : NetworkPermissionRules
  createdAt : String
  pid : Option Nat
  status : String
deriving Repr, DecidableEq, Inhabited

/-- createSandbox from sandbox.js. crypto.randomUUID() and new Date() are the
parameters freshId and now; if the tier string is outside the three tiers the
JS object would carry undefined limit and rule fields, modelled as none. -/
def createSandbox (serverConfig : ServerConfig) (permissionTier : String)
    (freshId now home cwd : String) : Option Sandbox :=
  match RESOURCE_LIMITS permissionTier, FILE_PERMISSIONS home cwd permissionTier,
        NETWORK_PERMISSIONS permissionTier with
  | some limits, some filePerms, some networkPerms =>
      some { id := freshId, serverId := serverConfig.id,
             permissionTier := permissionTier, resourceLimits := limits,
             filePermissions := filePerms, networkPermissions := networkPerms,
             createdAt := now, pid := none, status := "created" }
  | _, _, _ => none

/-- node path.resolve restricted to the inputs that occur here: the policy
prefixes are absolute and already normalized, so resolution only prepends the
working directory to a relative path. -/
def pathResolve (cwd p : String) : String :=
  if jsStartsWith p "/" then p else cwd ++ "/" ++ p

structure FileAccessResult where
  allowed : Bool
  reason : Option String := none
  requiresEscalation : Option Bool := none
  suggestedPaths : Option (List String) := none
deriving Repr, DecidableEq

/-- validateFileAccess from sandbox.js. -/
def validateFileAccess (sandbox : Sandbox) (filePath : String)
    (operation : String) (cwd : String) : FileAccessResult :=
  let filePermissions := sandbox.filePermissions
  let permissionTier := sandbox.permissionTier
  let normalizedPath := pathResolve cwd filePath
  match filePermissions.blockedPaths.find?
      (fun blockedPath => jsStartsWith normalizedPath (pathResolve cwd blockedPath)) with
  | some blockedPath =>
      { allowed := false,
        reason := some ("Access to " ++ blockedPath ++ " is blocked for " ++
                        permissionTier ++ " privilege servers"),
        requiresEscalation := some (permissionTier != PERMISSION_TIERS.HIGH) }
  | none =>
    if permissionTier == PERMISSION_TIERS.HIGH then
      { allowed := true }
    else
      let allowedPaths := if operation == "write" then filePermissions.writablePaths
                          else filePermissions.readablePaths
      if allowedPaths.contains "*" then
        { allowed := true }
      else if allowedPaths.any
          (fun allowedPath => jsStartsWith normalizedPath (pathResolve cwd allowedPath)) then
        { allowed := true }
      else
        { allowed := false,
          reason := some (operation ++ " access to " ++ filePath ++
                          " not permitted for " ++ permissionTier ++ " privilege servers"),
          requiresEscalation := some true,
          suggestedPaths := some allowedPaths }

structure NetworkAccessResult where
  allowed : Bool
  reason : Option String := none
  requiresEscalation : Option Bool := none
  allowedDomains : Option (List String) := none
  allowedPorts : Option (List PortEntry) := none
deriving Repr, DecidableEq

/-- The inline allowed-domain predicate of validateNetworkAccess: a pattern
starting with a star-dot matches by bare suffix, any other pattern by
equality. -/
def domainPatternMatches (allowedDomain domain : String) : Bool :=
  if jsStartsWith allowedDomain "*." then
    let wildcardDomain := jsDrop allowedDomain 2
    jsEndsWith domain wildcardDomain
  else domain == allowedDomain

/-- validateNetworkAccess from sandbox.js. -/
def validateNetworkAccess (sandbox : Sandbox) (domain : String) (port : Int) :
    NetworkAccessResult :=
  let networkPermissions := sandbox.networkPermissions
  let permissionTier := sandbox.permissionTier
  if !networkPermissions.allowNetwork then
    { allowed := false,
      reason := some ("Network access not permitted for " ++ permissionTier ++
                      " privilege servers"),
      requiresEscalation := some true }
  else
    let allowedDomains := networkPermissions.allowedDomains
    if !allowedDomains.contains "*" &&
       !(allowedDomains.any (fun allowedDomain => domainPatternMatches allowedDomain domain)) then
      { allowed := false,
        reason := some ("Access to domain " ++ domain ++ " not permitted for " ++
                        permissionTier ++ " privilege servers"),
        requiresEscalation := some (permissionTier != PERMISSION_TIERS.HIGH),
        allowedDomains := some allowedDomains }
    else
      let allowedPorts := networkPermissions.allowedPorts
      if !allowedPorts.contains .star && !allowedPorts.contains (.port port) then
        { allowed := false,
          reason := some ("Access to port " ++ toString port ++ " not permitted for " ++
                          permissionTier ++ " privilege servers"),
          requiresEscalation := some (permissionTier != PERMISSION_TIERS.HIGH),
          allowedPorts := some allowedPorts }
      else
        { allowed := true }

def highPrivilegeIndicators : List String :=
  ["system", "admin", "root", "sudo", "filesystem-write", "network-unrestricted"]

def mediumPrivilegeIndicators : List String :=
  ["filesystem", "file", "git", "database", "api", "web"]

/-- getDefaultPermissionTier from sandbox.js: the tier classifier. Explicit
permission hints win, then case-insensitive keyword inspection of name,
description and package, defaulting to low. -/
def getDefaultPermissionTier (serverConfig : ServerConfig) : String :=
  if (serverConfig.permissions.getD []).contains "high" then PERMISSION_TIERS.HIGH
  else if (serverConfig.permissions.getD []).contains "medium" then PERMISSION_TIERS.MEDIUM
  else
    let serverName := jsToLower (serverConfig.name.getD "")
    let serverDesc := jsToLower (serverConfig.description.getD "")
    let serverPackage := jsToLower (serverConfig.package.getD "")
    if highPrivilegeIndicators.any (fun indicator =>
        jsIncludes serverName indicator || jsIncludes serverDesc indicator ||
        jsIncludes serverPackage indicator) then PERMISSION_TIERS.HIGH
    else if mediumPrivilegeIndicators.any (fun indicator =>
        jsIncludes serverName indicator || jsIncludes serverDesc indicator ||
        jsIncludes serverPackage indicator) then PERMISSION_TIERS.MEDIUM
    else PERMISSION_TIERS.LOW

/-! ### registry.js: the static server registry -/

/-- The MCP_SERVERS registry object from registry.js, restricted to the fields
the embedded functions read. Entries carry no id and no permissionTier field. -/
def MCP_SERVERS : List (String × ServerConfig) :=
  [("filesystem",
    { name := some "Filesystem",
      description := some "Local file system operations",
      package := some "@modelcontextprotocol/server-filesystem",
      command := some "npx", permissions := some ["high"] }),
   ("memory",
    { name := some "Memory",
      description := some "Memory for Claude through a knowledge graph",
      package := some "@modelcontextprotocol/server-memory",
      command := some "npx", permissions := some ["medium"] }),
   ("puppeteer",
    { name := some "Puppeteer",
      description := some "Browser automation using Puppeteer",
      package := some "@hisma/server-puppeteer",
      command := some "npx", permissions := some ["medium"] }),
   ("everything",
    { name := some "Everything",
      description := some "Test server exercising all MCP protocol features",
      package := some "@modelcontextprotocol/server-everything",
      command := some "npx", permissions := some ["low"] }),
   ("sequential",
    { name := some "Sequential Thinking",
      description := some "Sequential thinking and problem solving",
      package := some "@modelcontextprotocol/server-sequential-thinking",
      command := some "npx", permissions := some ["low"] }),
   ("crawler",
    { name := some "Smart Crawler",
      description := some "Web crawling using Playwright",
      package := some "mcp-smart-crawler",
      command := some "npx", permissions := some ["medium"] })]

/-- getServerConfig from registry.js: throws for an unknown id. -/
def getServerConfig (serverId : String) : Except String ServerConfig :=
  match MCP_SERVERS.lookup serverId with
  | some server => .ok server
  | none => .error ("Unknown MCP server: " ++ serverId)

/-! ### permissions.js: the permission store and escalation flow

The persisted configuration file .ampgi-config.json is modelled as a
ConfigFile value: missing (fs.pathExists false), corrupt (fs.readJson
throws), or valid JSON with possibly-absent top-level keys. Each mutator
returns the file state it writes back. -/

structure PermissionOverride where
  tier : String
  setAt : String
deriving Repr, DecidableEq, Inhabited

structure ConfigData where
  safeMode : Option Bool := none
  permissionOverrides : Option (List (String × PermissionOverride)) := none
  lastModified : Option String := none
deriving Repr, DecidableEq, Inhabited

inductive ConfigFile where
  | missing
  | corrupt
  | valid (config : ConfigData)
deriving Repr, DecidableEq, Inhabited

/-- Replacement-or-append update of a JS-object-as-association-list. -/
def mapSet {α : Type} (m : List (String × α)) (k : String) (v : α) :
    List (String × α) :=
  if (m.lookup k).isSome then
    m.map (fun kv => if kv.1 == k then (k, v) else kv)
  else m ++ [(k, v)]

def mapErase {α : Type} (m : List (String × α)) (k : String) :
    List (String × α) :=
  m.filter (fun kv => kv.1 != k)

/-- isSafeModeEnabled from permissions.js. A missing file and a read error
both fall through to true; an existing file answers the strict comparison
of its safeMode member with true. -/
def isSafeModeEnabled : ConfigFile → Bool
  | .missing => true
  | .corrupt => true
  | .valid config => config.safeMode == some true

/-- setSafeMode from permissions.js; a read error on an existing file makes
the whole operation throw. -/
def setSafeMode (file : ConfigFile) (enabled : Bool) (now : String) :
    Except String ConfigFile :=
  match file with
  | .corrupt => .error "Failed to update safe mode setting"
  | .missing => .ok (.valid { safeMode := some enabled, lastModified := some now })
  | .valid config =>
      .ok (.valid { config with safeMode := some enabled, lastModified := some now })

/-- getPermissionOverrides from permissions.js; errors are swallowed and give
the empty object. -/
def getPermissionOverrides : ConfigFile → List (String × PermissionOverride)
  | .missing => []
  | .corrupt => []
  | .valid config => config.permissionOverrides.getD []

/-- setPermissionOverride from permissions.js. Note the written file carries
no safeMode member when the existing state had none. -/
def setPermissionOverride (file : ConfigFile) (serverId permissionTier now : String) :
    Except String ConfigFile :=
  match file with
  | .corrupt => .error "Failed to set permission override"
  | .missing =>
      .ok (.valid { permissionOverrides :=
        (some [(serverId, { tier := permissionTier, setAt := now })]) })
  | .valid config =>
      let overrides := config.permissionOverrides.getD []
      .ok (.valid { config with permissionOverrides :=
        (some (mapSet overrides serverId { tier := permissionTier, setAt := now })) })

structure BlockResult where
  blocked : Bool
  reason : Option String := none
  serverName : Option String := none
  requiredTier : Option String := none
deriving Repr, DecidableEq

/-- isServerBlockedByQuarantinemode from permissions.js. The falsy-config
guard of the source is unreachable because getServerConfig throws for an
unknown id, so the exception propagates instead. -/
def isServerBlockedByQuarantinemode (file : ConfigFile) (serverId : String) :
    Except String BlockResult :=
  let safeMode := isSafeModeEnabled file
  if !safeMode then .ok { blocked := false }
  else
    match getServerConfig serverId with
    | .error e => .error e
    | .ok serverConfig =>
      let requiresHighPrivileges :=
        (serverConfig.permissions.getD []).contains "high" ||
        serverConfig.permissionTier == some PERMISSION_TIERS.HIGH
      if requiresHighPrivileges then
        .ok { blocked := true,
              reason := some "High privilege servers are blocked in safe mode",
              serverName := serverConfig.name,
              requiredTier := some PERMISSION_TIERS.HIGH }
      else .ok { blocked := false }

/-- getEffectivePermissionTier from permissions.js. -/
def getEffectivePermissionTier (file : ConfigFile) (serverId defaultTier : String) :
    Except String String :=
  let overrides := getPermissionOverrides file
  match overrides.lookup serverId with
  | some override => .ok override.tier
  | none =>
    match isServerBlockedByQuarantinemode file serverId with
    | .error e => .error e
    | .ok safeModeCheck =>
      if safeModeCheck.blocked then .ok PERMISSION_TIERS.LOW
      else .ok defaultTier

/-- The environment facts requestPermissionEscalation inspects before doing
anything else: process.env.NODE_ENV and process.stdin.isTTY. -/
structure EscalationEnv where
  nodeEnv : Option String
  stdinIsTTY : Bool
deriving Repr, DecidableEq

structure EscalationResult where
  granted : Bool
  reason : Option String := none
  permanentOverride : Option Bool := none
deriving Repr, DecidableEq

/-- requestPermissionEscalation from permissions.js. The answer parameter is
the line read from the interactive prompt (consulted only on the interactive
path); console output is elided. The pair carries the resulting store state. -/
def requestPermissionEscalation (env : EscalationEnv) (file : ConfigFile)
    (answer serverId currentTier requestedTier reasonArg now : String) :
    Except String (EscalationResult × ConfigFile) :=
  if env.nodeEnv == some "test" || !env.stdinIsTTY then
    .ok ({ granted := false, reason := some "Non-interactive environment" }, file)
  else
    match getServerConfig serverId with
    | .error e => .error e
    | .ok _serverConfig =>
      let granted := jsTrim (jsToLower answer) == "yes"
      if granted then
        match setPermissionOverride file serverId requestedTier now with
        | .error e => .error e
        | .ok file2 =>
            .ok ({ granted := true, permanentOverride := some true }, file2)
      else
        .ok ({ granted := false, permanentOverride := some false }, file)

/-! ### process-manager.js: the subprocess lifecycle

The ProcessManager singleton's mutable maps are the PMState record. Spawning
is modelled by an explicit spawnPid argument (none when child_process.spawn
throws), fresh sandbox uuids and timestamps by explicit arguments. Timers,
health-check intervals, signals and buffered output do not affect the
registry contents or statuses the claims concern and are elided; wall-clock
fields (startTime, lastHealthCheck, uptime) are likewise elided. -/

structure ProcessInfo where
  serverId : String
  sandboxId : String
  pid : Option Nat
  status : String
  restartCount : Nat
  hasChildProcess : Bool
  config : ServerConfig
deriving Repr, DecidableEq

structure PMState where
  processes : List (String × ProcessInfo)
  sandboxes : List (String × Sandbox)
deriving Repr, DecidableEq

def PMState.empty : PMState := { processes := [], sandboxes := [] }

def ProcessManager.maxConcurrentProcesses : Nat := 10

structure StartResult where
  success : Bool
  serverId : String
  sandboxId : String
  pid : Option Nat
  permissionTier : String
deriving Repr, DecidableEq

structure StopResult where
  success : Bool
  reason : Option String := none
  error : Option String := none
deriving Repr, DecidableEq

/-- The fallback classifier ProcessManager.getDefaultPermissionTier: explicit
hints only, no keyword inspection (its comment says it should match the logic
in sandbox.js, which it does not). -/
def ProcessManager.getDefaultPermissionTier (serverConfig : ServerConfig) : String :=
  if (serverConfig.permissions.getD []).contains "high" then PERMISSION_TIERS.HIGH
  else if (serverConfig.permissions.getD []).contains "medium" then PERMISSION_TIERS.MEDIUM
  else PERMISSION_TIERS.LOW

/-- The serverId a ProcessManager method computes: serverConfig.id or, when
that is falsy, serverConfig.name. Both absent would key the map by the JS
undefined value, modelled as a distinguished string. -/
def ProcessManager.serverIdOf (serverConfig : ServerConfig) : String :=
  (jsOrStr serverConfig.id serverConfig.name).getD "undefined"

/-- ProcessManager.startMCPServer. The permissionTier argument defaults to
null in the source; any falsy value selects the fallback classifier. A thrown
error is the Except.error component, paired with the manager state as left
behind by the mutations preceding the throw (the catch branch marks the fresh
record failed and then removes both records again). The tier-table miss
branch is unreachable for the three tier strings the callers produce. -/
def ProcessManager.startMCPServer (st : PMState) (serverConfig : ServerConfig)
    (permissionTier : Option String) (freshSandboxId : String)
    (spawnPid : Option Nat) (now home cwd : String) :
    PMState × Except String StartResult :=
  let serverId := ProcessManager.serverIdOf serverConfig
  let alreadyRunning :=
    match st.processes.lookup serverId with
    | some existing => existing.status == "running"
    | none => false
  if alreadyRunning then
    (st, .error ("Server " ++ serverId ++ " is already running"))
  else
    let runningCount := (st.processes.filter (fun kv => kv.2.status == "running")).length
    if ProcessManager.maxConcurrentProcesses ≤ runningCount then
      (st, .error ("Maximum concurrent processes (" ++
            toString ProcessManager.maxConcurrentProcesses ++ ") reached"))
    else
      let tier :=
        match jsOrStr permissionTier none with
        | some t => t
        | none => ProcessManager.getDefaultPermissionTier serverConfig
      match createSandbox serverConfig tier freshSandboxId now home cwd with
      | none => (st, .error ("Failed to start server " ++ serverId))
      | some sandbox =>
        let st1 : PMState := { st with sandboxes := mapSet st.sandboxes sandbox.id sandbox }
        let processInfo : ProcessInfo :=
          { serverId := serverId, sandboxId := sandbox.id, pid := none,
            status := "starting", restartCount := 0, hasChildProcess := false,
            config := serverConfig }
        let st2 : PMState := { st1 with processes := mapSet st1.processes serverId processInfo }
        match spawnPid with
        | none =>
          let st3 : PMState :=
            { st2 with processes := mapErase st2.processes serverId,
                       sandboxes := mapErase st2.sandboxes sandbox.id }
          (st3, .error ("Failed to start server " ++ serverId))
        | some pid =>
          let runningInfo :=
            { processInfo with pid := some pid, hasChildProcess := true,
                               status := "running" }
          let sandbox2 := { sandbox with pid := some pid }
          let st3 : PMState :=
            { st2 with processes := mapSet st2.processes serverId runningInfo,
                       sandboxes := mapSet st2.sandboxes sandbox.id sandbox2 }
          (st3, .ok { success := true, serverId := serverId,
                      sandboxId := sandbox.id, pid := some pid,
                      permissionTier := sandbox.permissionTier })

/-- ProcessManager.stopMCPServer: graceful-then-forced termination elided,
the state effect is the removal of both tracking records. -/
def ProcessManager.stopMCPServer (st : PMState) (serverId reasonArg : String) :
    PMState × StopResult :=
  match st.processes.lookup serverId with
  | none => (st, { success := false, error := some "Server not found" })
  | some processInfo =>
    let st1 : PMState :=
      { st with processes := mapErase st.processes serverId,
                sandboxes := mapErase st.sandboxes processInfo.sandboxId }
    (st1, { success := true, reason := some reasonArg })

/-- ProcessManager.restartMCPServer: bumps the restart counter on the record
about to be discarded, stops, then starts afresh with the sandbox's tier. -/
def ProcessManager.restartMCPServer (st : PMState) (serverId : String)
    (freshSandboxId : String) (spawnPid : Option Nat) (now home cwd : String) :
    PMState × Except String StartResult :=
  match st.processes.lookup serverId with
  | none => (st, .error ("Server " ++ serverId ++ " not found"))
  | some processInfo =>
    let serverConfig := processInfo.config
    let sandboxTier := (st.sandboxes.lookup processInfo.sandboxId).map
      (fun sandbox => sandbox.permissionTier)
    let bumped := { processInfo with restartCount := processInfo.restartCount + 1 }
    let st1 : PMState := { st with processes := mapSet st.processes serverId bumped }
    let stopped := ProcessManager.stopMCPServer st1 serverId "restart"
    ProcessManager.startMCPServer stopped.1 serverConfig sandboxTier
      freshSandboxId spawnPid now home cwd

/-- ProcessManager.killServer: SIGKILL the child and mark the record killed;
the record is not removed from either map. -/
def ProcessManager.killServer (st : PMState) (serverId : String) : PMState × Bool :=
  match st.processes.lookup serverId with
  | none => (st, false)
  | some processInfo =>
    if !processInfo.hasChildProcess then (st, false)
    else
      let killed := { processInfo with status := "killed" }
      ({ st with processes := mapSet st.processes serverId killed }, true)

structure StatusSnapshot where
  status : String
  pid : Option Nat := none
  restartCount : Option Nat := none
  permissionTier : Option String := none
  sandboxId : Option String := none
deriving Repr, DecidableEq

/-- ProcessManager.getServerStatus. -/
def ProcessManager.getServerStatus (st : PMState) (serverId : String) :
    StatusSnapshot :=
  match st.processes.lookup serverId with
  | none => { status := "not_found" }
  | some processInfo =>
    let sandbox := st.sandboxes.lookup processInfo.sandboxId
    { status := processInfo.status, pid := processInfo.pid,
      restartCount := some processInfo.restartCount,
      permissionTier := sandbox.map (fun sb => sb.permissionTier),
      sandboxId := some processInfo.sandboxId }

/-- The exit handler installed by setupProcessHandlers, applied to the live
record of serverId: marks it stopped and reports whether the auto-restart
guard (exit code distinct from 0, restartCount below 3) fires. When the
record was already removed the handler only mutates a detached object and
its scheduled restart fails with not-found and is swallowed. -/
def ProcessManager.onExit (st : PMState) (serverId : String) (code : Option Int) :
    PMState × Bool :=
  match st.processes.lookup serverId with
  | none => (st, false)
  | some processInfo =>
    let stopped := { processInfo with status := "stopped" }
    let st1 : PMState := { st with processes := mapSet st.processes serverId stopped }
    let willRestart := (code != some 0) && (processInfo.restartCount < 3)
    (st1, willRestart)

/-- One crash cycle of a running server: the exit event fires, and when the
auto-restart guard passes, the delayed restartMCPServer call runs (its
rejection is swallowed by the .catch in the source). -/
def ProcessManager.crashStep (st : PMState) (serverId : String) (code : Option Int)
    (freshSandboxId : String) (spawnPid : Option Nat) (now home cwd : String) :
    PMState :=
  let afterExit := ProcessManager.onExit st serverId code
  if afterExit.2 then
    (ProcessManager.restartMCPServer afterExit.1 serverId freshSandboxId
      spawnPid now home cwd).1
  else afterExit.1

/-! ### Concrete scenario states used by the theorems below -/

/-- A minimal server configuration for lifecycle scenarios. -/
def svcConfig : ServerConfig := { id := some "svc", name := some "svc" }

/-- State after starting svc from an empty manager (pid 100, sandbox sb0). -/
def crashSt0 : PMState :=
  (ProcessManager.startMCPServer PMState.empty svcConfig none "sb0"
    (some 100) "t0" "/home/u" "/cwd").1

/-- States after one to four unexpected exits with code 1, each followed by
the scheduled auto-restart when the guard fires. -/
def crashSt1 : PMState :=
  ProcessManager.crashStep crashSt0 "svc" (some 1) "sb1" (some 101) "t1" "/home/u" "/cwd"

def crashSt2 : PMState :=
  ProcessManager.crashStep crashSt1 "svc" (some 1) "sb2" (some 102) "t2" "/home/u" "/cwd"

def crashSt3 : PMState :=
  ProcessManager.crashStep crashSt2 "svc" (some 1) "sb3" (some 103) "t3" "/home/u" "/cwd"

def crashSt4 : PMState :=
  ProcessManager.crashStep crashSt3 "svc" (some 1) "sb4" (some 104) "t4" "/home/u" "/cwd"

/-- A started state for the kill scenario. -/
def killSt0 : PMState :=
  (ProcessManager.startMCPServer PMState.empty svcConfig none "sb0"
    (some 100) "t0" "/home/u" "/cwd").1

/-- Config files used by the permission-store scenarios: safe mode on with no
overrides, an override for memory, and safe mode explicitly off. -/
def cfSafeOn : ConfigFile := ConfigFile.valid { safeMode := some true }

def cfOverrideMemoryHigh : ConfigFile :=
  ConfigFile.valid
    { safeMode := some true,
      permissionOverrides := (some [("memory", { tier := "high", setAt := "t" })]) }

def cfSafeOff : ConfigFile := ConfigFile.valid { safeMode := some false }

/-- The memory server configuration as a caller passes it to the process
manager (registry entry plus its id). -/
def memoryConfig : ServerConfig :=
  { id := some "memory", name := some "Memory",
    description := some "Memory for Claude through a knowledge graph",
    package := some "@modelcontextprotocol/server-memory",
    command := some "npx", permissions := some ["medium"] }

def memoryStart : PMState × Except String StartResult :=
  ProcessManager.startMCPServer PMState.empty memoryConfig none "sbm"
    (some 200) "t0" "/home/u" "/cwd"

def memoryStartResult : StartResult :=
  match memoryStart.2 with
  | .ok r => r
  | .error _ => { success := false, serverId := "", sandboxId := "",
                  pid := none, permissionTier := "" }

/-- Sandboxes of each tier created with concrete home, cwd and ids. -/
def demoLowSandbox : Sandbox :=
  (createSandbox { id := some "demo" } PERMISSION_TIERS.LOW "sbL" "t0"
    "/home/u" "/cwd").getD default

def demoMediumSandbox : Sandbox :=
  (createSandbox { id := some "demo" } PERMISSION_TIERS.MEDIUM "sbM" "t0"
    "/home/u" "/cwd").getD default

def demoHighSandbox : Sandbox :=
  (createSandbox { id := some "demo" } PERMISSION_TIERS.HIGH "sbH" "t0"
    "/home/u" "/cwd").getD default

/-! ### Helper lemmas about the association-map operations -/

theorem lookup_map_replace {α : Type} (m : List (String × α)) (k : String) (v : α)
    (hs : (m.lookup k).isSome = true) :
    (m.map (fun kv => if kv.1 == k then (k, v) else kv)).lookup k = some v := by
  induction m with
  | nil => simp [List.lookup] at hs
  | cons kv t ih =>
    obtain ⟨a, b⟩ := kv
    by_cases heq : a = k
    · subst heq
      simp only [beq_iff_eq, List.map_cons, ↓reduceIte]
      simp only [List.lookup, beq_self_eq_true]
    · have h1 : (a == k) = false := beq_eq_false_iff_ne.mpr heq
      have h2 : (k == a) = false := beq_eq_false_iff_ne.mpr (fun e => heq e.symm)
      simp only [List.lookup, h2] at hs
      simp only [List.map_cons, h1, Bool.false_eq_true, if_false]
      simp only [List.lookup, h2]
      exact ih hs

theorem lookup_append_missing {α : Type} (m : List (String × α)) (k : String) (v : α)
    (hs : m.lookup k = none) :
    (m ++ [(k, v)]).lookup k = some v := by
  induction m with
  | nil => simp [List.lookup]
  | cons kv t ih =>
    obtain ⟨a, b⟩ := kv
    by_cases heq : k = a
    · subst heq
      simp [List.lookup] at hs
    · have h2 : (k == a) = false := beq_eq_false_iff_ne.mpr heq
      simp only [List.lookup, h2, List.cons_append] at hs ⊢
      exact ih hs

theorem lookup_mapSet_self {α : Type} (m : List (String × α)) (k : String) (v : α) :
    (mapSet m k v).lookup k = some v := by
  unfold mapSet
  split
  next hs => exact lookup_map_replace m k v hs
  next hs =>
    apply lookup_append_missing
    cases hl : m.lookup k with
    | none => rfl
    | some w => rw [hl] at hs; simp at hs

/-- createSandbox stamps exactly the requested tier on the descriptor. -/
theorem createSandbox_stamps_tier (cfg : ServerConfig) (t i n hm cw : String)
    (sb : Sandbox) (h : createSandbox cfg t i n hm cw = some sb) :
    sb.permissionTier = t := by
  unfold createSandbox at h
  split at h
  · cases h; rfl
  · cases h

/-! ### Claim theorems -/

/-- C1: the claim says unexpected non-zero exits trigger at most 3 automatic
restarts and that after the third the plugin stays stopped forever. The code
violates this: restartMCPServer bumps the counter on the old ProcessInfo, but
startMCPServer then records a fresh ProcessInfo with restartCount 0, so the
guard restartCount below 3 always sees 0 and every crash is restarted. This
theorem evaluates the embedded manager on a server that crashes four times in
a row: after three auto-restarts the guard still fires on the fourth crash
and the server is running again with restartCount 0, not left stopped. -/
theorem C1_auto_restart_is_unbounded :
    ((crashSt1.processes.lookup "svc").map (fun i => i.status) = some "running") ∧
    ((crashSt2.processes.lookup "svc").map (fun i => i.status) = some "running") ∧
    ((crashSt3.processes.lookup "svc").map (fun i => i.status) = some "running") ∧
    ((ProcessManager.onExit crashSt3 "svc" (some 1)).2 = true) ∧
    ((crashSt4.processes.lookup "svc").map (fun i => (i.status, i.restartCount)) =
      some ("running", 0)) := by
  exact ⟨rfl, rfl, rfl, rfl, rfl⟩

/-- C3: the claim says isSafeModeEnabled returns true whenever safe mode was
never explicitly set, including for a config file that exists but lacks a
safeMode entry (such as the file setPermissionOverride creates on a fresh
install). The first two conjuncts confirm the missing-file and corrupt-file
cases; the last two exhibit the violation: the file written by
setPermissionOverride from a missing config has no safeMode member, and on it
isSafeModeEnabled returns false because the strict comparison of an absent
member with true fails. -/
theorem C3_safe_mode_default_violated_by_override_only_file :
    isSafeModeEnabled ConfigFile.missing = true ∧
    isSafeModeEnabled ConfigFile.corrupt = true ∧
    setPermissionOverride ConfigFile.missing "memory" "medium" "2025-01-01" =
      .ok (ConfigFile.valid
        { safeMode := none,
          permissionOverrides := (some [("memory", { tier := "medium", setAt := "2025-01-01" })]),
          lastModified := none }) ∧
    isSafeModeEnabled (ConfigFile.valid
        { safeMode := none,
          permissionOverrides := (some [("memory", { tier := "medium", setAt := "2025-01-01" })]),
          lastModified := none }) = false := by
  exact ⟨rfl, rfl, rfl, rfl⟩

/-- C4 counterexample: after a successful kill of a started, tracked server,
getServerStatus does not report the not-found marker (as the claim demands)
but the status killed, and both the ProcessInfo and the sandbox record are
still in the live registry. -/
theorem C4_counterexample_kill_keeps_records :
    (ProcessManager.killServer killSt0 "svc").2 = true ∧
    (ProcessManager.getServerStatus (ProcessManager.killServer killSt0 "svc").1 "svc").status
      = "killed" ∧
    ("killed" : String) ≠ "not_found" ∧
    ((ProcessManager.killServer killSt0 "svc").1.processes.lookup "svc").isSome = true ∧
    ((ProcessManager.killServer killSt0 "svc").1.sandboxes.lookup "sb0").isSome = true := by
  exact ⟨rfl, rfl, by decide, rfl, rfl⟩

/-- C4 amended: a successful kill marks the tracked record killed but removes
nothing: the ProcessInfo stays in the process map with status killed, the
sandbox map is untouched, and a subsequent getServerStatus reports killed
rather than the not-found marker; records are removed only by stop (and by
cleanup, which delegates to stop). -/
theorem C4_kill_marks_killed_but_keeps_records (st : PMState) (serverId : String)
    (h : (ProcessManager.killServer st serverId).2 = true) :
    (((ProcessManager.killServer st serverId).1.processes.lookup serverId).map
        (fun i => i.status) = some "killed") ∧
    ((ProcessManager.killServer st serverId).1.sandboxes = st.sandboxes) ∧
    ((ProcessManager.getServerStatus (ProcessManager.killServer st serverId).1 serverId).status
        = "killed") := by
  unfold ProcessManager.killServer at h ⊢
  cases hl : st.processes.lookup serverId with
  | none =>
    simp only [hl] at h
    simp at h
  | some info =>
    simp only [hl] at h ⊢
    cases hc : info.hasChildProcess with
    | false =>
      simp [hc] at h
    | true =>
      simp only [hc, Bool.not_true, Bool.false_eq_true, if_false]
      refine ⟨?_, ?_, ?_⟩
      · rw [lookup_mapSet_self]
        rfl
      · trivial
      · simp only [ProcessManager.getServerStatus, lookup_mapSet_self]

/-- C4 witness: the amended kill behavior evaluated on the concrete started
state. -/
theorem C4_witness_concrete_kill :
    (((ProcessManager.killServer killSt0 "svc").1.processes.lookup "svc").map
        (fun i => i.status) = some "killed") ∧
    ((ProcessManager.killServer killSt0 "svc").1.sandboxes = killSt0.sandboxes) ∧
    ((ProcessManager.getServerStatus (ProcessManager.killServer killSt0 "svc").1 "svc").status
        = "killed") :=
  C4_kill_marks_killed_but_keeps_records killSt0 "svc" (by decide)

/-- C2 counterexample: memory has no override, safe mode is enabled and the
defaultTier argument is high, so the claim demands low; the code returns
high because the safe-mode block inspects only the registry entry of memory
(declared permissions medium), never the defaultTier argument. -/
theorem C2_counterexample_default_high_not_forced_low :
    getEffectivePermissionTier cfSafeOn "memory" "high" = .ok "high" ∧
    ("high" : String) ≠ "low" := by
  exact ⟨rfl, by decide⟩

/-- C2 amended: a stored override wins irrespective of the defaultTier
argument and of safe mode; with no override and safe mode enabled, low is
forced exactly when the registry entry declares the high permission hint or
a high permissionTier field (the defaultTier argument itself is never
consulted by the block check, and an unknown id makes the lookup throw);
otherwise, and always when safe mode is disabled, the defaultTier argument
is returned unchanged. -/
theorem C2_effective_tier_amended (file : ConfigFile) (serverId defaultTier : String) :
    (∀ ov, (getPermissionOverrides file).lookup serverId = some ov →
        getEffectivePermissionTier file serverId defaultTier = .ok ov.tier) ∧
    ((getPermissionOverrides file).lookup serverId = none →
      isSafeModeEnabled file = true →
      ∀ cfg, MCP_SERVERS.lookup serverId = some cfg →
        ((("high" ∈ cfg.permissions.getD [] ∨ cfg.permissionTier = some PERMISSION_TIERS.HIGH) →
            getEffectivePermissionTier file serverId defaultTier = .ok PERMISSION_TIERS.LOW) ∧
         (¬ ("high" ∈ cfg.permissions.getD [] ∨ cfg.permissionTier = some PERMISSION_TIERS.HIGH) →
            getEffectivePermissionTier file serverId defaultTier = .ok defaultTier))) ∧
    ((getPermissionOverrides file).lookup serverId = none →
      isSafeModeEnabled file = false →
      getEffectivePermissionTier file serverId defaultTier = .ok defaultTier) := by
  refine ⟨?_, ?_, ?_⟩
  · intro ov hov
    simp only [getEffectivePermissionTier, hov]
  · intro hov hsafe cfg hcfg
    constructor
    · intro hblk
      simp [getEffectivePermissionTier, isServerBlockedByQuarantinemode, getServerConfig,
        hov, hsafe, hcfg, hblk]
    · intro hblk
      simp [getEffectivePermissionTier, isServerBlockedByQuarantinemode, getServerConfig,
        hov, hsafe, hcfg, hblk]
  · intro hov hsafe
    simp [getEffectivePermissionTier, isServerBlockedByQuarantinemode, hov, hsafe]

/-- C2 witness: the amended characterization evaluated on concrete store
states and registry entries: an override wins, filesystem (declared high) is
forced low under safe mode, puppeteer (declared medium) keeps its default,
and with safe mode off even filesystem keeps the passed default. -/
theorem C2_witness_concrete_cases :
    getEffectivePermissionTier cfOverrideMemoryHigh "memory" "low" = .ok "high" ∧
    getEffectivePermissionTier cfSafeOn "filesystem" "high" = .ok PERMISSION_TIERS.LOW ∧
    getEffectivePermissionTier cfSafeOn "puppeteer" "medium" = .ok "medium" ∧
    getEffectivePermissionTier cfSafeOff "filesystem" "high" = .ok "high" := by
  refine ⟨?_, ?_, ?_, ?_⟩
  · exact (C2_effective_tier_amended cfOverrideMemoryHigh "memory" "low").1
      { tier := "high", setAt := "t" } (by decide)
  · exact ((C2_effective_tier_amended cfSafeOn "filesystem" "high").2.1 (by decide) (by decide)
      ((MCP_SERVERS.lookup "filesystem").get (by decide)) (by decide)).1 (by decide)
  · exact ((C2_effective_tier_amended cfSafeOn "puppeteer" "medium").2.1 (by decide) (by decide)
      ((MCP_SERVERS.lookup "puppeteer").get (by decide)) (by decide)).2 (by decide)
  · exact (C2_effective_tier_amended cfSafeOff "filesystem" "high").2.2 (by decide) (by decide)

/-- C5 counterexample: the memory config with a stored high override: the
effective tier composed from the classifier default and the store is high,
yet a start call without an explicit tier creates the sandbox at medium, so
the started tier does not equal the effective tier. -/
theorem C5_counterexample_start_ignores_store :
    memoryStartResult.permissionTier = "medium" ∧
    getEffectivePermissionTier cfOverrideMemoryHigh "memory"
      (getDefaultPermissionTier memoryConfig) = .ok "high" ∧
    ("medium" : String) ≠ "high" := by
  exact ⟨rfl, rfl, by decide⟩

/-- C5 amended: when start is called without an explicit tier, the sandbox is
created at the tier of the Process Manager's own hint-only fallback (high or
medium on an explicit hint, else low); neither the keyword classifier nor the
Permission Store takes part — the start path takes no store state at all. -/
theorem C5_default_start_tier_is_hint_fallback (st : PMState) (cfg : ServerConfig)
    (freshId : String) (spawnPid : Option Nat) (now hm cw : String)
    (res : StartResult)
    (h : (ProcessManager.startMCPServer st cfg none freshId spawnPid now hm cw).2 =
      .ok res) :
    res.permissionTier = ProcessManager.getDefaultPermissionTier cfg := by
  simp only [ProcessManager.startMCPServer, jsOrStr] at h
  split at h
  · simp at h
  · split at h
    · simp at h
    · split at h
      · simp at h
      · next sandbox heq =>
        split at h
        · simp at h
        · simp only [Except.ok.injEq] at h
          rw [← h]
          exact createSandbox_stamps_tier cfg
            (ProcessManager.getDefaultPermissionTier cfg) freshId now hm cw sandbox heq

/-- C5 witness: the amended statement evaluated on the concrete memory start:
the started tier equals the hint-only fallback (medium). -/
theorem C5_witness_memory_start :
    memoryStartResult.permissionTier = ProcessManager.getDefaultPermissionTier memoryConfig :=
  C5_default_start_tier_is_hint_fallback PMState.empty memoryConfig "sbm" (some 200)
    "t0" "/home/u" "/cwd" memoryStartResult rfl

/-- C6: for any sandbox whose tier is not high, any path under one of its
blocked prefixes is denied with requiresEscalation true for every operation
(read and write alike); and any sandbox created at tier high allows every
path for every operation, its blocked list being empty so the blocked-path
check never fires. -/
theorem C6_blocked_denied_and_high_bypasses (sb : Sandbox) (p op b cwd : String)
    (cfg : ServerConfig) (freshId now hm cw2 : String) (sbH : Sandbox)
    (hTier : sb.permissionTier ≠ PERMISSION_TIERS.HIGH)
    (hb : b ∈ sb.filePermissions.blockedPaths)
    (hmatch : jsStartsWith (pathResolve cwd p) (pathResolve cwd b) = true)
    (hH : createSandbox cfg PERMISSION_TIERS.HIGH freshId now hm cw2 = some sbH) :
    ((validateFileAccess sb p op cwd).allowed = false ∧
     (validateFileAccess sb p op cwd).requiresEscalation = some true) ∧
    (∀ q oper, (validateFileAccess sbH q oper cw2).allowed = true) := by
  constructor
  · have hfind : (sb.filePermissions.blockedPaths.find?
        (fun blockedPath =>
          jsStartsWith (pathResolve cwd p) (pathResolve cwd blockedPath))).isSome := by
      rw [List.find?_isSome]
      exact ⟨b, hb, hmatch⟩
    obtain ⟨b2, hb2⟩ := Option.isSome_iff_exists.mp hfind
    constructor
    · simp only [validateFileAccess, hb2]
    · simp only [validateFileAccess, hb2, Option.some.injEq]
      exact bne_iff_ne.mpr hTier
  · have e : createSandbox cfg PERMISSION_TIERS.HIGH freshId now hm cw2 = some
        { id := freshId, serverId := cfg.id, permissionTier := "high",
          resourceLimits := { maxMemory := 1024 * 1024 * 1024, maxCpuPercent := 80,
                              maxExecutionTime := 60000, maxConcurrentProcesses := 10 },
          filePermissions := { readablePaths := ["*"], writablePaths := ["*"],
                               blockedPaths := [] },
          networkPermissions := { allowNetwork := true, allowedDomains := ["*"],
                                  allowedPorts := [.star] },
          createdAt := now, pid := none, status := "created" } := rfl
    rw [e] at hH
    injection hH with h2
    subst h2
    intro q oper
    rfl

/-- C6 witness: the medium sandbox denies the blocked path with escalation,
and the high sandbox allows the same path for write. -/
theorem C6_witness_etc_blocked :
    ((validateFileAccess demoMediumSandbox "/etc/passwd" "write" "/cwd").allowed = false ∧
     (validateFileAccess demoMediumSandbox "/etc/passwd" "write" "/cwd").requiresEscalation
       = some true) ∧
    (validateFileAccess demoHighSandbox "/etc/passwd" "write" "/cwd").allowed = true := by
  have h := C6_blocked_denied_and_high_bypasses demoMediumSandbox "/etc/passwd" "write"
    "/etc" "/cwd" { id := some "demo" } "sbH" "t0" "/home/u" "/cwd" demoHighSandbox
    (by decide) (by decide) (by decide) (by decide)
  exact ⟨h.1, h.2 "/etc/passwd" "write"⟩

/-- C7: for every sandbox created at tier low and every path, a write access
is denied: either the path falls under a blocked prefix, or the low tier's
empty writable list (no wildcard, no prefixes) rejects it. -/
theorem C7_low_tier_write_always_denied (cfg : ServerConfig)
    (freshId now hm cw p : String) (sb : Sandbox)
    (h : createSandbox cfg PERMISSION_TIERS.LOW freshId now hm cw = some sb) :
    (validateFileAccess sb p "write" cw).allowed = false := by
  have e : createSandbox cfg PERMISSION_TIERS.LOW freshId now hm cw = some
      { id := freshId, serverId := cfg.id, permissionTier := "low",
        resourceLimits := { maxMemory := 256 * 1024 * 1024, maxCpuPercent := 25,
                            maxExecutionTime := 15000, maxConcurrentProcesses := 3 },
        filePermissions := { readablePaths := [hm ++ "/Documents", hm ++ "/Desktop", cw],
                             writablePaths := [],
                             blockedPaths := ["/etc", "/usr", "/bin", "/sbin", "/var",
                                              "/opt", hm ++ "/.ssh", hm ++ "/.config"] },
        networkPermissions := { allowNetwork := false, allowedDomains := [],
                                allowedPorts := [] },
        createdAt := now, pid := none, status := "created" } := rfl
  rw [e] at h
  injection h with h2
  subst h2
  simp only [validateFileAccess]
  split
  · rfl
  · rfl

/-- C7 witness: a write inside the low tier's own readable Documents folder
is still denied. -/
theorem C7_witness_documents_write_denied :
    (validateFileAccess demoLowSandbox "/home/u/Documents/report.txt" "write" "/cwd").allowed
      = false :=
  C7_low_tier_write_always_denied { id := some "demo" } "sbL" "t0" "/home/u" "/cwd"
    "/home/u/Documents/report.txt" demoLowSandbox (by decide)

/-- C8: in a test or non-interactive environment (NODE_ENV test, or stdin not
a TTY) requestPermissionEscalation returns granted false with the
non-interactive reason and the store state unchanged; moreover on every
denial path, in any environment, the returned store state is unchanged — an
override is written only when the escalation is granted. -/
theorem C8_noninteractive_escalation_fail_closed (env : EscalationEnv) (file : ConfigFile)
    (answer serverId currentTier requestedTier reasonArg now : String)
    (hni : env.nodeEnv = some "test" ∨ env.stdinIsTTY = false) :
    (requestPermissionEscalation env file answer serverId currentTier requestedTier
        reasonArg now =
      .ok ({ granted := false, reason := some "Non-interactive environment" }, file)) ∧
    (∀ env2 res file2,
      requestPermissionEscalation env2 file answer serverId currentTier requestedTier
          reasonArg now = .ok (res, file2) →
      res.granted = false → file2 = file) := by
  constructor
  · have hc : (env.nodeEnv == some "test" || !env.stdinIsTTY) = true := by
      rcases hni with h | h
      · simp [h]
      · simp [h]
    simp only [requestPermissionEscalation, hc, if_true]
  · intro env2 res file2 hrun hg
    simp only [requestPermissionEscalation] at hrun
    split at hrun
    · simp only [Except.ok.injEq, Prod.mk.injEq] at hrun
      exact hrun.2.symm
    · split at hrun
      · simp at hrun
      · split at hrun
        · split at hrun
          · simp at hrun
          · simp only [Except.ok.injEq, Prod.mk.injEq] at hrun
            rw [← hrun.1] at hg
            simp at hg
        · simp only [Except.ok.injEq, Prod.mk.injEq] at hrun
          exact hrun.2.symm

/-- C8 witness: the non-interactive denial evaluated at a concrete test
environment and store state. -/
theorem C8_witness_test_env :
    requestPermissionEscalation { nodeEnv := some "test", stdinIsTTY := true } cfSafeOn
      "yes" "memory" "low" "high" "because" "t0" =
    .ok ({ granted := false, reason := some "Non-interactive environment" }, cfSafeOn) :=
  (C8_noninteractive_escalation_fail_closed { nodeEnv := some "test", stdinIsTTY := true }
    cfSafeOn "yes" "memory" "low" "high" "because" "t0" (Or.inl rfl)).1

/-- C9: the classifier is a total function by construction; for every config
whose hint list contains neither high nor medium and whose lowercased name,
description and package contain none of the high- or medium-privilege
keywords (empty metadata included), it returns low. -/
theorem C9_classifier_defaults_to_low (cfg : ServerConfig)
    (h1 : (cfg.permissions.getD []).contains "high" = false)
    (h2 : (cfg.permissions.getD []).contains "medium" = false)
    (h3 : ∀ kw ∈ highPrivilegeIndicators ++ mediumPrivilegeIndicators,
        jsIncludes (jsToLower (cfg.name.getD "")) kw = false ∧
        jsIncludes (jsToLower (cfg.description.getD "")) kw = false ∧
        jsIncludes (jsToLower (cfg.package.getD "")) kw = false) :
    getDefaultPermissionTier cfg = PERMISSION_TIERS.LOW := by
  have hhi : highPrivilegeIndicators.any (fun indicator =>
      jsIncludes (jsToLower (cfg.name.getD "")) indicator ||
      jsIncludes (jsToLower (cfg.description.getD "")) indicator ||
      jsIncludes (jsToLower (cfg.package.getD "")) indicator) = false := by
    rw [List.any_eq_false]
    intro kw hkw
    obtain ⟨a, b, c⟩ := h3 kw (List.mem_append_left _ hkw)
    simp [a, b, c]
  have hmed : mediumPrivilegeIndicators.any (fun indicator =>
      jsIncludes (jsToLower (cfg.name.getD "")) indicator ||
      jsIncludes (jsToLower (cfg.description.getD "")) indicator ||
      jsIncludes (jsToLower (cfg.package.getD "")) indicator) = false := by
    rw [List.any_eq_false]
    intro kw hkw
    obtain ⟨a, b, c⟩ := h3 kw (List.mem_append_right _ hkw)
    simp [a, b, c]
  simp only [getDefaultPermissionTier, h1, h2, hhi, hmed, Bool.false_eq_true, if_false]

/-- C9 witness: fully empty metadata classifies as low. -/
theorem C9_witness_empty_metadata :
    getDefaultPermissionTier {} = PERMISSION_TIERS.LOW :=
  C9_classifier_defaults_to_low {} (by decide) (by decide) (by decide)

/-- C10: the wildcard branch of the allowed-domain check is a bare suffix
test: a star-dot pattern built over any suffix accepts every domain that
merely ends with those characters; concretely, the medium tier allows
evilgoogleapis.com on port 443 because it ends with googleapis.com and so
matches the star-dot googleapis.com pattern, although it is neither equal to
googleapis.com nor a dot-separated subdomain of it. -/
theorem C10_wildcard_is_bare_suffix (s dom : String)
    (hsuf : jsEndsWith dom s = true) :
    domainPatternMatches ("*." ++ s) dom = true ∧
    validateNetworkAccess demoMediumSandbox "evilgoogleapis.com" 443 = { allowed := true } ∧
    jsEndsWith "evilgoogleapis.com" ".googleapis.com" = false ∧
    ("evilgoogleapis.com" : String) ≠ "googleapis.com" := by
  refine ⟨?_, by decide, by decide, by decide⟩
  cases s with
  | mk d =>
    have hlit : ("*." : String) = String.mk ['*', '.'] := rfl
    have happ : ("*." ++ String.mk d) = String.mk ('*' :: '.' :: d) := rfl
    have hpre : jsStartsWith ("*." ++ String.mk d) "*." = true := by
      rw [happ, hlit]
      show (['*', '.'] : List Char).isPrefixOf ('*' :: '.' :: d) = true
      rw [ List.isPrefixOf_iff_prefix]
      exact ⟨d, rfl⟩
    have hdrop : jsDrop ("*." ++ String.mk d) 2 = String.mk d := rfl
    unfold domainPatternMatches
    simp only [hpre, hdrop, if_true]
    exact hsuf

/-- C10 witness: instantiated at the googleapis suffix and the evil domain. -/
theorem C10_witness_evilgoogleapis :
    domainPatternMatches ("*." ++ "googleapis.com") "evilgoogleapis.com" = true ∧
    validateNetworkAccess demoMediumSandbox "evilgoogleapis.com" 443 = { allowed := true } ∧
    jsEndsWith "evilgoogleapis.com" ".googleapis.com" = false ∧
    ("evilgoogleapis.com" : String) ≠ "googleapis.com" :=
  C10_wildcard_is_bare_suffix "googleapis.com" "evilgoogleapis.com" (by decide)

end AmpGI
